import Mathlib

/-!
Shallow embedding of the DriveAndPutt top-down arcade driving/golf game.

JavaScript numbers are modelled as real numbers (`ℝ`), millisecond
timestamps (`Date.now()`) as integers (`ℤ`), and the stroke counter as a
natural number.  Mutating functions from the source are modelled by
explicit state passing: each embedded function returns the updated
entities.  Boolean-valued tests on real numbers are modelled as
decidable propositions.

Sources:
* `src/types.ts` — `Vector`, `GameObject`, `Car`, `Rect`, `GameState`, `Level`
* `src/constants.ts` — `PHYSICS`, `SIZES`, `TileType`
* `src/utils/physics.ts` — `getDistance`, `dot`, `checkCircleRectCollision`,
  `resolveCircleRectCollision`, `checkCircleCircleCollision`,
  `resolveCarBallCollision`
* `src/hooks/useGameLoop.ts` — the sub-step loop and the post-physics
  event handling of `update` (trail, stroke debounce, splash, hole check)
* `src/utils/levels-data.ts` — the `LEVELS` catalog
* `src/utils/levelGenerator.ts` — `generateLevel`
-/

namespace DriveAndPutt

/-- `Vector` from `src/types.ts`: an `{x, y}` pair of numbers. -/
structure Vector where
  x : ℝ
  y : ℝ

/-- `GameObject` from `src/types.ts`. -/
structure GameObject where
  pos : Vector
  vel : Vector
  radius : ℝ

/-- `Car` from `src/types.ts` (`Car extends GameObject`). -/
structure Car extends GameObject where
  angle : ℝ
  speed : ℝ
  width : ℝ
  height : ℝ

/-- `Rect` from `src/types.ts`. -/
structure Rect where
  x : ℝ
  y : ℝ
  w : ℝ
  h : ℝ
  type : ℤ

/-- `GameState` from `src/types.ts`. -/
inductive GameState where
  | MENU
  | PLAYING
  | WON
  | LOST
deriving DecidableEq

/-- `Level` from `src/types.ts`. -/
structure Level where
  id : ℤ
  name : String
  par : ℤ
  walls : List Rect
  sandTraps : List Rect
  water : List Rect
  startPos : Vector
  holePos : Vector

-- Constants from `src/constants.ts`.

def CANVAS_WIDTH : ℝ := 1024

def CANVAS_HEIGHT : ℝ := 768

namespace PHYSICS

def FRICTION_GROUND : ℝ := 0.96

def FRICTION_SAND : ℝ := 0.85

def CAR_ACCEL : ℝ := 0.4

def CAR_MAX_SPEED : ℝ := 12

def CAR_TURN_SPEED : ℝ := 0.07

def CAR_BRAKE : ℝ := 0.3

def BALL_BOUNCE : ℝ := 0.8

def CAR_BOUNCE : ℝ := 0.3

def COLLISION_DAMPING : ℝ := 0.8

def HANDBRAKE_TRACTION : ℝ := 0.05

def HANDBRAKE_TURN_MULT : ℝ := 1.8

end PHYSICS

namespace SIZES

def CAR_WIDTH : ℝ := 30

def CAR_HEIGHT : ℝ := 18

def BALL_RADIUS : ℝ := 10

def HOLE_RADIUS : ℝ := 18

def WALL_THICKNESS : ℝ := 20

end SIZES

namespace TileType

def GRASS : ℤ := 0

def WALL : ℤ := 1

def SAND : ℤ := 2

def WATER : ℤ := 3

def HOLE : ℤ := 4

def START : ℤ := 5

end TileType

-- `src/utils/physics.ts`

/-- `getDistance` from `src/utils/physics.ts`. -/
noncomputable def getDistance (v1 v2 : Vector) : ℝ :=
  Real.sqrt ((v1.x - v2.x) * (v1.x - v2.x) + (v1.y - v2.y) * (v1.y - v2.y))

/-- `dot` from `src/utils/physics.ts`. -/
def dot (v1 v2 : Vector) : ℝ := v1.x * v2.x + v1.y * v2.y

/-- The `closestX`/`closestY` clamp computed by both
`checkCircleRectCollision` and `resolveCircleRectCollision` in
`src/utils/physics.ts`: the circle center clamped to the rectangle's bounds. -/
def closestPoint (p : Vector) (rect : Rect) : Vector :=
  ⟨max rect.x (min p.x (rect.x + rect.w)), max rect.y (min p.y (rect.y + rect.h))⟩

/-- The distance from a point to its clamp on the rectangle, as computed by
`resolveCircleRectCollision` (`Math.sqrt(dx*dx + dy*dy)`). -/
noncomputable def closestDist (p : Vector) (rect : Rect) : ℝ :=
  getDistance p (closestPoint p rect)

/-- `checkCircleRectCollision` from `src/utils/physics.ts`: collision holds
iff the squared distance from the circle's center to its clamp on the
rectangle is strictly less than the squared radius. -/
def checkCircleRectCollision (circle : GameObject) (rect : Rect) : Prop :=
  (circle.pos.x - (closestPoint circle.pos rect).x) *
      (circle.pos.x - (closestPoint circle.pos rect).x) +
    (circle.pos.y - (closestPoint circle.pos rect).y) *
      (circle.pos.y - (closestPoint circle.pos rect).y) <
  circle.radius * circle.radius

noncomputable instance (circle : GameObject) (rect : Rect) :
    Decidable (checkCircleRectCollision circle rect) := by
  unfold checkCircleRectCollision
  exact inferInstance

/-- `resolveCircleRectCollision` from `src/utils/physics.ts`, as a pure
state transformer on the circle.  Skips entirely when the center is at
distance zero from its clamp; otherwise pushes the circle out along the
contact normal by `radius - dist` and, if the velocity points into the
normal, reflects it scaled by `PHYSICS.BALL_BOUNCE`. -/
noncomputable def resolveCircleRectCollision (circle : GameObject) (rect : Rect) :
    GameObject :=
  let closest := closestPoint circle.pos rect
  let dx := circle.pos.x - closest.x
  let dy := circle.pos.y - closest.y
  let dist := Real.sqrt (dx * dx + dy * dy)
  if dist = 0 then circle
  else
    let nx := dx / dist
    let ny := dy / dist
    let overlap := circle.radius - dist
    let pos' : Vector := ⟨circle.pos.x + nx * overlap, circle.pos.y + ny * overlap⟩
    let dotProd := circle.vel.x * nx + circle.vel.y * ny
    let vel' : Vector :=
      if dotProd < 0 then
        ⟨(circle.vel.x - 2 * dotProd * nx) * PHYSICS.BALL_BOUNCE,
         (circle.vel.y - 2 * dotProd * ny) * PHYSICS.BALL_BOUNCE⟩
      else circle.vel
    { circle with pos := pos', vel := vel' }

/-- `checkCircleCircleCollision` from `src/utils/physics.ts`. -/
noncomputable def checkCircleCircleCollision (c1 c2 : GameObject) : Prop :=
  getDistance c1.pos c2.pos < c1.radius + c2.radius

noncomputable instance (c1 c2 : GameObject) :
    Decidable (checkCircleCircleCollision c1 c2) := by
  unfold checkCircleCircleCollision
  exact inferInstance

/-- `resolveCarBallCollision` from `src/utils/physics.ts`, returning the
updated car, the updated ball, and the boolean result (`true` iff a
meaningful hit occurred).  The ball is pushed out of the car in both
branches; the car's `speed`/`vel` are damped and the impulse applied only
in the `carSpeedAlongNormal > ballSpeedAlongNormal` branch. -/
noncomputable def resolveCarBallCollision (car : Car) (ball : GameObject) :
    Car × GameObject × Bool :=
  let dist := getDistance car.pos ball.pos
  if dist = 0 then (car, ball, false)
  else
    let nx := (ball.pos.x - car.pos.x) / dist
    let ny := (ball.pos.y - car.pos.y) / dist
    let overlap := (car.radius + ball.radius) - dist
    let ballPos : Vector := ⟨ball.pos.x + nx * overlap, ball.pos.y + ny * overlap⟩
    let carSpeedAlongNormal := dot car.vel ⟨nx, ny⟩
    let ballSpeedAlongNormal := dot ball.vel ⟨nx, ny⟩
    if carSpeedAlongNormal > ballSpeedAlongNormal then
      let transfer := (carSpeedAlongNormal - ballSpeedAlongNormal) * 1.5
      ({ car with speed := car.speed * 0.8,
                  vel := ⟨car.vel.x * 0.8, car.vel.y * 0.8⟩ },
       { ball with pos := ballPos,
                   vel := ⟨ball.vel.x + nx * transfer, ball.vel.y + ny * transfer⟩ },
       true)
    else
      (car, { ball with pos := ballPos }, false)

-- `src/hooks/useGameLoop.ts`: the sub-stepped collision loop of `update`.

/-- `SUBSTEPS` from `useGameLoop.update`. -/
def SUBSTEPS : ℕ := 8

/-- The per-sub-step car advance: `car.pos += car.vel / SUBSTEPS`. -/
noncomputable def advanceCar (car : Car) : Car :=
  { car with pos := ⟨car.pos.x + car.vel.x / SUBSTEPS, car.pos.y + car.vel.y / SUBSTEPS⟩ }

/-- The per-sub-step ball advance: `ball.pos += ball.vel / SUBSTEPS`. -/
noncomputable def advanceBall (ball : GameObject) : GameObject :=
  { ball with pos := ⟨ball.pos.x + ball.vel.x / SUBSTEPS, ball.pos.y + ball.vel.y / SUBSTEPS⟩ }

/-- The car-vs-walls pass of one sub-step in `useGameLoop.update`: for each
wall in order, if the car overlaps it, resolve the collision, halve the
car's scalar speed, and flag a wall hit when the pre-resolution velocity
magnitude exceeded 4.  The accumulated boolean is `hitWallThisFrame`. -/
noncomputable def carWallsStep (walls : List Rect) (car : Car) (hitWall : Bool) :
    Car × Bool :=
  walls.foldl
    (fun acc wall =>
      if checkCircleRectCollision acc.1.toGameObject wall then
        let preSpeed := Real.sqrt (acc.1.vel.x ^ 2 + acc.1.vel.y ^ 2)
        let r := resolveCircleRectCollision acc.1.toGameObject wall
        ({ acc.1 with pos := r.pos, vel := r.vel, speed := acc.1.speed * 0.5 },
         acc.2 || decide (preSpeed > 4))
      else acc)
    (car, hitWall)

/-- The ball-vs-walls pass of one sub-step in `useGameLoop.update`: for each
wall in order, if the ball overlaps it, resolve the collision and flag a
wall hit when the pre-resolution velocity magnitude exceeded 4. -/
noncomputable def ballWallsStep (walls : List Rect) (ball : GameObject) (hitWall : Bool) :
    GameObject × Bool :=
  walls.foldl
    (fun acc wall =>
      if checkCircleRectCollision acc.1 wall then
        let prevVelX := acc.1.vel.x
        let prevVelY := acc.1.vel.y
        (resolveCircleRectCollision acc.1 wall,
         acc.2 || decide (Real.sqrt (prevVelX ^ 2 + prevVelY ^ 2) > 4))
      else acc)
    (ball, hitWall)

/-- The mutable state threaded through the sub-step loop of
`useGameLoop.update`: car, ball, and the three per-frame event flags. -/
structure SubState where
  car : Car
  ball : GameObject
  hitBall : Bool
  hitWall : Bool
  splash : Bool

/-- One iteration of the sub-step loop in `useGameLoop.update`: advance car
and ball by `1/SUBSTEPS` of their velocities, resolve car-vs-ball (the hit
flag is set only from `resolveCarBallCollision`'s return value), then test
the ball against every water rectangle; if any overlaps, set the splash
flag and skip the wall passes of this sub-step entirely.  Otherwise
resolve the car and then the ball against every wall. -/
noncomputable def substepOnce (level : Level) (s : SubState) : SubState :=
  let car1 := advanceCar s.car
  let ball1 := advanceBall s.ball
  let cb : Car × GameObject × Bool :=
    if checkCircleCircleCollision car1.toGameObject ball1 then
      let r := resolveCarBallCollision car1 ball1
      (r.1, r.2.1, s.hitBall || r.2.2)
    else (car1, ball1, s.hitBall)
  let splash := s.splash || level.water.any fun w => decide (checkCircleRectCollision cb.2.1 w)
  if splash then
    { car := cb.1, ball := cb.2.1, hitBall := cb.2.2, hitWall := s.hitWall, splash := true }
  else
    let cw := carWallsStep level.walls cb.1 s.hitWall
    let bw := ballWallsStep level.walls cb.2.1 cw.2
    { car := cw.1, ball := bw.1, hitBall := cb.2.2, hitWall := bw.2, splash := false }

/-- The sub-step loop of `useGameLoop.update` (`for i in 0..SUBSTEPS`):
after each sub-step, `if (splashThisFrame) break;` exits the loop. -/
noncomputable def substepLoop (level : Level) : ℕ → SubState → SubState
  | 0, s => s
  | n + 1, s =>
    let s' := substepOnce level s
    if s'.splash then s' else substepLoop level n s'

-- `src/hooks/useGameLoop.ts`: post-physics event handling of `update`.

/-- The ball as held in `ballRef` of `useGameLoop`: a `GameObject` together
with its `trail` (most recent positions, newest at the back). -/
structure BallState where
  pos : Vector
  vel : Vector
  radius : ℝ
  trail : List Vector

/-- The trail update of `useGameLoop.update`: if the ball's speed exceeds 1
push the current position (and `shift()` the oldest entry once the length
exceeds 15), otherwise `shift()` one entry off the front when non-empty. -/
noncomputable def trailStep (trail : List Vector) (pos : Vector) (ballSpeed : ℝ) :
    List Vector :=
  if ballSpeed > 1 then
    let t := trail ++ [pos]
    if t.length > 15 then t.tail else t
  else if trail.length > 0 then trail.tail else trail

/-- The outputs of one frame's post-physics event handling. -/
structure FrameOut where
  ball : BallState
  strokes : ℕ
  lastStrokeTime : ℤ
  gameState : GameState

/-- The hole detection at the end of `useGameLoop.update`: when the ball is
within `SIZES.HOLE_RADIUS` of the hole and its speed is below 8, the game
state is set to `WON`; otherwise it is left unchanged. -/
noncomputable def holeCheck (ball : BallState) (holePos : Vector) (gs : GameState) :
    GameState :=
  let distToHole := getDistance ball.pos holePos
  if distToHole < SIZES.HOLE_RADIUS then
    let bSpeed := Real.sqrt (ball.vel.x ^ 2 + ball.vel.y ^ 2)
    if bSpeed < 8 then GameState.WON else gs
  else gs

/-- The post-physics event block of `useGameLoop.update`, in source order:
1. trail update from the ball's current speed;
2. `hitBallThisFrame`: increment strokes only when more than 500ms passed
   since `lastStrokeTime`, updating `lastStrokeTime` on increment;
3. `splashThisFrame`: always increment strokes, respawn the ball at the
   car's position offset backward along its heading by 40, zero the
   velocity and clear the trail;
4. hole detection on the resulting ball. -/
noncomputable def postPhysicsEvents (level : Level) (car : Car) (ball : BallState)
    (hitBallThisFrame hitWallThisFrame splashThisFrame : Bool)
    (now lastStrokeTime : ℤ) (strokes : ℕ) (gs : GameState) : FrameOut :=
  let ballSpeed := Real.sqrt (ball.vel.x ^ 2 + ball.vel.y ^ 2)
  let ball1 := { ball with trail := trailStep ball.trail ball.pos ballSpeed }
  let strokes1 :=
    if hitBallThisFrame then
      if now - lastStrokeTime > 500 then strokes + 1 else strokes
    else strokes
  let lastStrokeTime1 :=
    if hitBallThisFrame then
      if now - lastStrokeTime > 500 then now else lastStrokeTime
    else lastStrokeTime
  let ball2 :=
    if splashThisFrame then
      { ball1 with
          pos := ⟨car.pos.x - Real.cos car.angle * 40, car.pos.y - Real.sin car.angle * 40⟩,
          vel := ⟨0, 0⟩,
          trail := [] }
    else ball1
  let strokes2 := if splashThisFrame then strokes1 + 1 else strokes1
  { ball := ball2, strokes := strokes2, lastStrokeTime := lastStrokeTime1,
    gameState := holeCheck ball2 level.holePos gs }

-- `src/utils/levels-data.ts`

/-- The wall/zone constructor `b` from `src/utils/levels-data.ts`. -/
def b (x y w h : ℝ) (type : ℤ) : Rect := ⟨x, y, w, h, type⟩

/-- `BORDERS` from `src/utils/levels-data.ts`. -/
def BORDERS : List Rect :=
  [b 0 0 CANVAS_WIDTH 20 TileType.WALL,
   b 0 (CANVAS_HEIGHT - 20) CANVAS_WIDTH 20 TileType.WALL,
   b 0 0 20 CANVAS_HEIGHT TileType.WALL,
   b (CANVAS_WIDTH - 20) 0 20 CANVAS_HEIGHT TileType.WALL]

/-- `LEVELS` from `src/utils/levels-data.ts`: the static 30-level catalog. -/
def LEVELS : List Level :=
  [{ id := 1, name := "Training Day", par := 4,
     startPos := ⟨100, 100⟩, holePos := ⟨900, 600⟩,
     walls := BORDERS ++ [b 300 0 40 400 TileType.WALL, b 300 400 400 40 TileType.WALL],
     sandTraps := [b 400 500 200 100 TileType.SAND], water := [] },
   { id := 2, name := "The Drag Strip", par := 4,
     startPos := ⟨80, 384⟩, holePos := ⟨950, 384⟩,
     walls := BORDERS ++ [b 0 250 CANVAS_WIDTH 40 TileType.WALL, b 0 480 CANVAS_WIDTH 40 TileType.WALL],
     sandTraps := [b 700 300 150 170 TileType.SAND], water := [] },
   { id := 3, name := "Hairpin", par := 5,
     startPos := ⟨100, 100⟩, holePos := ⟨100, 650⟩,
     walls := BORDERS ++ [b 300 0 40 550 TileType.WALL, b 600 200 40 600 TileType.WALL],
     sandTraps := [b 340 450 260 100 TileType.SAND], water := [] },
   { id := 4, name := "Square One", par := 5,
     startPos := ⟨100, 100⟩, holePos := ⟨900, 650⟩,
     walls := BORDERS ++ [b 300 200 400 300 TileType.WALL],
     sandTraps := [b 100 400 200 100 TileType.SAND, b 700 200 100 200 TileType.SAND], water := [] },
   { id := 5, name := "Sandbox", par := 5,
     startPos := ⟨100, 384⟩, holePos := ⟨900, 384⟩,
     walls := BORDERS,
     sandTraps := [b 300 100 100 600 TileType.SAND, b 600 100 100 600 TileType.SAND], water := [] },
   { id := 6, name := "Water Hazard", par := 6,
     startPos := ⟨100, 650⟩, holePos := ⟨900, 100⟩,
     walls := BORDERS, sandTraps := [],
     water := [b 300 0 400 400 TileType.WATER, b 0 400 400 100 TileType.WATER] },
   { id := 7, name := "The Figure 8", par := 6,
     startPos := ⟨100, 100⟩, holePos := ⟨900, 100⟩,
     walls := BORDERS ++ [b 450 0 124 250 TileType.WALL, b 450 500 124 300 TileType.WALL, b 200 350 624 40 TileType.WALL],
     sandTraps := [b 100 500 200 200 TileType.SAND], water := [] },
   { id := 8, name := "The Snake", par := 5,
     startPos := ⟨100, 50⟩, holePos := ⟨900, 700⟩,
     walls := BORDERS ++ [b 200 0 40 500 TileType.WALL, b 500 250 40 600 TileType.WALL, b 800 0 40 500 TileType.WALL],
     sandTraps := [b 240 300 260 50 TileType.SAND, b 540 400 260 50 TileType.SAND], water := [] },
   { id := 9, name := "The Tee", par := 5,
     startPos := ⟨500, 700⟩, holePos := ⟨500, 100⟩,
     walls := BORDERS ++ [b 0 300 400 40 TileType.WALL, b 624 300 400 40 TileType.WALL, b 400 300 40 200 TileType.WALL, b 584 300 40 200 TileType.WALL],
     sandTraps := [b 440 300 144 200 TileType.SAND], water := [] },
   { id := 10, name := "Target Practice", par := 5,
     startPos := ⟨100, 384⟩, holePos := ⟨900, 384⟩,
     walls := BORDERS ++ [b 300 200 50 50 TileType.WALL, b 500 500 50 50 TileType.WALL, b 700 200 50 50 TileType.WALL, b 400 600 50 50 TileType.WALL],
     sandTraps := [b 200 100 600 50 TileType.SAND, b 200 618 600 50 TileType.SAND], water := [] },
   { id := 11, name := "Dual Lanes", par := 6,
     startPos := ⟨100, 384⟩, holePos := ⟨900, 384⟩,
     walls := BORDERS ++ [b 200 360 600 48 TileType.WALL],
     sandTraps := [b 200 100 600 260 TileType.SAND],
     water := [b 200 408 600 260 TileType.WATER] },
   { id := 12, name := "The Spiral", par := 7,
     startPos := ⟨50, 50⟩, holePos := ⟨512, 384⟩,
     walls := BORDERS ++ [b 150 150 724 40 TileType.WALL, b 150 150 40 550 TileType.WALL, b 150 650 600 40 TileType.WALL, b 700 300 40 390 TileType.WALL, b 300 300 440 40 TileType.WALL],
     sandTraps := [], water := [b 200 200 50 400 TileType.WATER] },
   { id := 13, name := "The Cage", par := 6,
     startPos := ⟨100, 100⟩, holePos := ⟨900, 650⟩,
     walls := BORDERS ++ [b 300 100 40 100 TileType.WALL, b 500 100 40 100 TileType.WALL, b 700 100 40 100 TileType.WALL,
       b 300 300 40 100 TileType.WALL, b 500 300 40 100 TileType.WALL, b 700 300 40 100 TileType.WALL,
       b 300 500 40 100 TileType.WALL, b 500 500 40 100 TileType.WALL, b 700 500 40 100 TileType.WALL],
     sandTraps := [b 0 200 CANVAS_WIDTH 50 TileType.SAND, b 0 450 CANVAS_WIDTH 50 TileType.SAND], water := [] },
   { id := 14, name := "Bridge Cross", par := 6,
     startPos := ⟨100, 384⟩, holePos := ⟨900, 384⟩,
     walls := BORDERS, sandTraps := [],
     water := [b 300 0 424 300 TileType.WATER, b 300 468 424 300 TileType.WATER] },
   { id := 15, name := "Bunker Hill", par := 7,
     startPos := ⟨100, 100⟩, holePos := ⟨900, 650⟩,
     walls := BORDERS,
     sandTraps := [b 200 0 600 600 TileType.SAND],
     water := [] },
   { id := 16, name := "Zig Zag", par := 6,
     startPos := ⟨100, 100⟩, holePos := ⟨900, 100⟩,
     walls := BORDERS ++ [b 200 0 40 600 TileType.WALL, b 400 168 40 600 TileType.WALL, b 600 0 40 600 TileType.WALL, b 800 168 40 600 TileType.WALL],
     sandTraps := [], water := [] },
   { id := 17, name := "The Donut", par := 5,
     startPos := ⟨100, 384⟩, holePos := ⟨512, 384⟩,
     walls := BORDERS, sandTraps := [],
     water := [b 350 0 324 768 TileType.WATER] },
   { id := 18, name := "Corner Pocket", par := 6,
     startPos := ⟨100, 100⟩, holePos := ⟨950, 700⟩,
     walls := BORDERS ++ [b 800 500 224 40 TileType.WALL, b 800 500 40 268 TileType.WALL],
     sandTraps := [b 600 0 100 768 TileType.SAND], water := [] },
   { id := 19, name := "Gauntlet", par := 6,
     startPos := ⟨50, 384⟩, holePos := ⟨974, 384⟩,
     walls := BORDERS ++ [b 200 0 40 300 TileType.WALL, b 200 468 40 300 TileType.WALL, b 400 0 40 300 TileType.WALL, b 400 468 40 300 TileType.WALL, b 600 0 40 300 TileType.WALL, b 600 468 40 300 TileType.WALL, b 800 0 40 300 TileType.WALL, b 800 468 40 300 TileType.WALL],
     sandTraps := [], water := [] },
   { id := 20, name := "Islands", par := 8,
     startPos := ⟨100, 100⟩, holePos := ⟨900, 650⟩,
     walls := BORDERS, sandTraps := [],
     water := [b 250 0 100 768 TileType.WATER, b 650 0 100 768 TileType.WATER] },
   { id := 21, name := "Maze Runner", par := 8,
     startPos := ⟨50, 50⟩, holePos := ⟨950, 700⟩,
     walls := BORDERS ++ [b 0 150 800 40 TileType.WALL, b 224 300 800 40 TileType.WALL, b 0 450 800 40 TileType.WALL, b 224 600 800 40 TileType.WALL],
     sandTraps := [], water := [] },
   { id := 22, name := "Death Trap", par := 8,
     startPos := ⟨100, 100⟩, holePos := ⟨900, 650⟩,
     walls := BORDERS,
     sandTraps := [],
     water := [b 0 0 1024 768 TileType.WATER, b 50 50 300 300 TileType.GRASS, b 700 500 250 200 TileType.GRASS, b 400 300 200 100 TileType.GRASS] },
   { id := 23, name := "The U-Turn", par := 7,
     startPos := ⟨100, 100⟩, holePos := ⟨100, 650⟩,
     walls := BORDERS ++ [b 200 150 824 468 TileType.WALL],
     sandTraps := [], water := [] },
   { id := 24, name := "Pinball", par := 7,
     startPos := ⟨512, 700⟩, holePos := ⟨512, 100⟩,
     walls := BORDERS ++ [b 300 500 100 40 TileType.WALL, b 624 500 100 40 TileType.WALL, b 200 300 40 100 TileType.WALL, b 784 300 40 100 TileType.WALL],
     sandTraps := [b 400 400 224 200 TileType.SAND], water := [] },
   { id := 25, name := "Hourglass", par := 6,
     startPos := ⟨100, 100⟩, holePos := ⟨100, 650⟩,
     walls := BORDERS ++ [b 0 200 450 368 TileType.WALL, b 574 200 450 368 TileType.WALL],
     sandTraps := [], water := [] },
   { id := 26, name := "Checkers", par := 8,
     startPos := ⟨50, 384⟩, holePos := ⟨974, 384⟩,
     walls := BORDERS,
     sandTraps := [b 200 0 100 200 TileType.SAND, b 400 200 100 200 TileType.SAND, b 600 0 100 200 TileType.SAND, b 800 200 100 200 TileType.SAND],
     water := [b 200 400 100 200 TileType.WATER, b 400 600 100 200 TileType.WATER] },
   { id := 27, name := "The Void", par := 10,
     startPos := ⟨50, 384⟩, holePos := ⟨974, 384⟩,
     walls := BORDERS,
     sandTraps := [],
     water := [b 150 0 100 768 TileType.WATER, b 350 0 100 768 TileType.WATER, b 550 0 100 768 TileType.WATER, b 750 0 100 768 TileType.WATER] },
   { id := 28, name := "Labyrinth", par := 9,
     startPos := ⟨50, 50⟩, holePos := ⟨974, 700⟩,
     walls := BORDERS ++ [b 150 0 40 600 TileType.WALL, b 300 168 40 600 TileType.WALL, b 450 0 40 600 TileType.WALL, b 600 168 40 600 TileType.WALL, b 750 0 40 600 TileType.WALL],
     sandTraps := [], water := [] },
   { id := 29, name := "The Long Haul", par := 12,
     startPos := ⟨102, 102⟩, holePos := ⟨200, 102⟩,
     walls := BORDERS ++ [b 200 200 624 368 TileType.WALL],
     sandTraps := [b 0 0 100 100 TileType.SAND], water := [] },
   { id := 30, name := "Grand Finale", par := 15,
     startPos := ⟨100, 700⟩, holePos := ⟨900, 100⟩,
     walls := BORDERS ++ [b 200 200 40 600 TileType.WALL, b 600 0 40 600 TileType.WALL],
     sandTraps := [b 300 500 200 200 TileType.SAND],
     water := [b 700 200 200 200 TileType.WATER] }]

/-- `generateLevel` from `src/utils/levelGenerator.ts`: 1-indexed at the
call site, 0-indexed into `LEVELS` via `(levelIndex - 1) % LEVELS.length`
(JavaScript `%` is truncated remainder, `Int.tmod`); an out-of-range array
access yields `undefined`, modelled as `none`. -/
def generateLevel (levelIndex : ℤ) : Option Level :=
  let idx := Int.tmod (levelIndex - 1) (LEVELS.length : ℤ)
  if 0 ≤ idx then LEVELS.get? idx.toNat else none

-- Auxiliary specification-side definitions used only in theorem statements.

/-- Membership of a point in an axis-aligned rectangle (specification side:
used to state what `checkCircleRectCollision` decides). -/
def inRect (p : Vector) (rect : Rect) : Prop :=
  rect.x ≤ p.x ∧ p.x ≤ rect.x + rect.w ∧ rect.y ≤ p.y ∧ p.y ≤ rect.y + rect.h

/-- The contact normal used by `resolveCircleRectCollision`: the unit vector
from the clamp point toward the circle center (only meaningful when
`closestDist ≠ 0`). -/
noncomputable def contactNormal (p : Vector) (rect : Rect) : Vector :=
  ⟨(p.x - (closestPoint p rect).x) / closestDist p rect,
   (p.y - (closestPoint p rect).y) / closestDist p rect⟩

/-- The car-to-ball normal used by `resolveCarBallCollision` (only
meaningful when the centers are at nonzero distance). -/
noncomputable def carBallNormal (car : Car) (ball : GameObject) : Vector :=
  ⟨(ball.pos.x - car.pos.x) / getDistance car.pos ball.pos,
   (ball.pos.y - car.pos.y) / getDistance car.pos ball.pos⟩

/-- The per-frame inputs that can influence the ball's trail: an arbitrary
car and post-loop ball position/velocity, the three event flags, and the
stroke bookkeeping (the physics loop never touches the trail, so a frame
sequence is over-approximated by arbitrary per-frame values here). -/
structure FrameIn where
  level : Level
  car : Car
  ballPos : Vector
  ballVel : Vector
  hitBall : Bool
  hitWall : Bool
  splash : Bool
  now : ℤ
  lastStrokeTime : ℤ
  strokes : ℕ
  gs : GameState

/-- The trail produced by one frame's post-physics event handling, as a
function of the previous trail and that frame's inputs. -/
noncomputable def frameTrail (trail : List Vector) (f : FrameIn) : List Vector :=
  (postPhysicsEvents f.level f.car ⟨f.ballPos, f.ballVel, SIZES.BALL_RADIUS, trail⟩
    f.hitBall f.hitWall f.splash f.now f.lastStrokeTime f.strokes f.gs).ball.trail

-- Helper lemmas.

theorem sqrt_of_sq {a c : ℝ} (hc : 0 ≤ c) (h : c ^ 2 = a) : Real.sqrt a = c := by
  rw [← h, Real.sqrt_sq hc]

-- Claims.

/-- C10: for every integer `k` with `1 ≤ k ≤ catalogSize`, requesting level
index `catalogSize + k` from `generateLevel` returns the same `Level`
record as requesting index `k`: indices beyond the catalog wrap modulo the
catalog size. -/
theorem generateLevel_wraparound (k : ℤ) (h1 : 1 ≤ k)
    (h2 : k ≤ (LEVELS.length : ℤ)) :
    generateLevel ((LEVELS.length : ℤ) + k) = generateLevel k := by
  have hlen : (LEVELS.length : ℤ) = 30 := by
    norm_num [show LEVELS.length = 30 from rfl]
  simp only [generateLevel]
  rw [hlen] at h2 ⊢
  have e1 : Int.tmod (30 + k - 1) 30 = k - 1 := by
    rw [Int.tmod_eq_emod (by omega) (by omega)]; omega
  have e2 : Int.tmod (k - 1) 30 = k - 1 := by
    rw [Int.tmod_eq_emod (by omega) (by omega)]; omega
  rw [e1, e2]

theorem generateLevel_wraparound_witness :
    1 ≤ (3 : ℤ) ∧ (3 : ℤ) ≤ (LEVELS.length : ℤ) ∧
      generateLevel ((LEVELS.length : ℤ) + 3) = generateLevel 3 :=
  ⟨by norm_num,
   by norm_num [show LEVELS.length = 30 from rfl],
   generateLevel_wraparound 3 (by norm_num)
     (by norm_num [show LEVELS.length = 30 from rfl])⟩

/-- C1 (counterexample): the claim asserts that a hit at the 500ms boundary
increments the stroke counter; with exactly 500ms elapsed since the last
counted stroke (`now = 500`, `lastStrokeTime = 0`) the code's strict
comparison `now - lastStrokeTime > 500` fails, so the counter stays `0`
instead of becoming `0 + 1`. -/
theorem hitBall_boundary_counterexample :
    (postPhysicsEvents ⟨1, "L", 4, [], [], [], ⟨100, 100⟩, ⟨900, 650⟩⟩
        ⟨⟨⟨0, 0⟩, ⟨0, 0⟩, 15⟩, 0, 0, 30, 18⟩ ⟨⟨0, 0⟩, ⟨0, 0⟩, 10, []⟩
        true false false 500 0 0 GameState.PLAYING).strokes = 0 ∧
    (postPhysicsEvents ⟨1, "L", 4, [], [], [], ⟨100, 100⟩, ⟨900, 650⟩⟩
        ⟨⟨⟨0, 0⟩, ⟨0, 0⟩, 15⟩, 0, 0, 30, 18⟩ ⟨⟨0, 0⟩, ⟨0, 0⟩, 10, []⟩
        true false false 500 0 0 GameState.PLAYING).strokes ≠ 0 + 1 := by
  constructor <;> norm_num [postPhysicsEvents]

/-- C1 (amended): for every PLAYING frame in which a meaningful car-ball
hit is flagged (and no splash occurred), the stroke counter is incremented
iff strictly more than 500ms elapsed since the last counted stroke; a hit
at 500ms or less after the previous counted stroke (including exactly at
the boundary) never increments the counter, no matter how often contact
is re-flagged. -/
theorem hitBall_debounce_strict (level : Level) (car : Car) (ball : BallState)
    (hitWall : Bool) (now lastT : ℤ) (strokes : ℕ) (gs : GameState) :
    (now - lastT > 500 →
      (postPhysicsEvents level car ball true hitWall false now lastT strokes gs).strokes
          = strokes + 1 ∧
      (postPhysicsEvents level car ball true hitWall false now lastT strokes gs).lastStrokeTime
          = now) ∧
    (now - lastT ≤ 500 →
      (postPhysicsEvents level car ball true hitWall false now lastT strokes gs).strokes
          = strokes ∧
      (postPhysicsEvents level car ball true hitWall false now lastT strokes gs).lastStrokeTime
          = lastT) := by
  unfold postPhysicsEvents
  constructor <;> intro h
  · simp [h]
  · have h' : ¬(now - lastT > 500) := by omega
    simp [h']

theorem hitBall_debounce_strict_witness :
    (501 : ℤ) - 0 > 500 ∧
      (postPhysicsEvents ⟨1, "L", 4, [], [], [], ⟨100, 100⟩, ⟨900, 650⟩⟩
          ⟨⟨⟨0, 0⟩, ⟨0, 0⟩, 15⟩, 0, 0, 30, 18⟩ ⟨⟨0, 0⟩, ⟨0, 0⟩, 10, []⟩
          true false false 501 0 0 GameState.PLAYING).strokes = 0 + 1 :=
  ⟨by norm_num,
   ((hitBall_debounce_strict ⟨1, "L", 4, [], [], [], ⟨100, 100⟩, ⟨900, 650⟩⟩
        ⟨⟨⟨0, 0⟩, ⟨0, 0⟩, 15⟩, 0, 0, 30, 18⟩ ⟨⟨0, 0⟩, ⟨0, 0⟩, 10, []⟩
        false 501 0 0 GameState.PLAYING).1 (by norm_num)).1⟩

/-- C2: hole detection sets the state to WON iff the ball-to-hole distance
is below `SIZES.HOLE_RADIUS` and the ball's speed is below 8; when either
condition fails the game state is left unchanged (a fast ball inside the
hole's circle stays PLAYING). -/
theorem holeCheck_won_iff (ball : BallState) (holePos : Vector) :
    (holeCheck ball holePos GameState.PLAYING = GameState.WON ↔
      getDistance ball.pos holePos < SIZES.HOLE_RADIUS ∧
        Real.sqrt (ball.vel.x ^ 2 + ball.vel.y ^ 2) < 8) ∧
    ∀ gs : GameState,
      ¬(getDistance ball.pos holePos < SIZES.HOLE_RADIUS ∧
          Real.sqrt (ball.vel.x ^ 2 + ball.vel.y ^ 2) < 8) →
        holeCheck ball holePos gs = gs := by
  simp only [holeCheck]
  constructor
  · split_ifs with h1 h2
    · simp [h1, h2]
    · simp [h1, h2]
    · simp [h1]
  · intro gs h
    split_ifs with h1 h2
    · exact absurd ⟨h1, h2⟩ h
    · rfl
    · rfl

theorem holeCheck_won_iff_witness :
    holeCheck ⟨⟨900, 650⟩, ⟨3, 0⟩, 10, []⟩ ⟨900, 650⟩ GameState.PLAYING
        = GameState.WON ∧
      holeCheck ⟨⟨900, 650⟩, ⟨20, 0⟩, 10, []⟩ ⟨900, 650⟩ GameState.PLAYING
        = GameState.PLAYING := by
  have h0 : getDistance ⟨900, 650⟩ ⟨900, 650⟩ = 0 := by
    simp [getDistance]
  constructor
  · refine (holeCheck_won_iff ⟨⟨900, 650⟩, ⟨3, 0⟩, 10, []⟩ ⟨900, 650⟩).1.mpr ⟨?_, ?_⟩
    · simp only []
      rw [h0]
      norm_num [SIZES.HOLE_RADIUS]
    · show Real.sqrt ((3 : ℝ) ^ 2 + (0 : ℝ) ^ 2) < 8
      rw [sqrt_of_sq (by norm_num : (0 : ℝ) ≤ 3) (by norm_num)]
      norm_num
  · refine (holeCheck_won_iff ⟨⟨900, 650⟩, ⟨20, 0⟩, 10, []⟩ ⟨900, 650⟩).2
      GameState.PLAYING ?_
    simp only [not_and]
    intro _
    show ¬Real.sqrt ((20 : ℝ) ^ 2 + (0 : ℝ) ^ 2) < 8
    rw [sqrt_of_sq (by norm_num : (0 : ℝ) ≤ 20) (by norm_num)]
    norm_num

/-- C3: for every PLAYING frame in which a splash is flagged, the stroke
counter is incremented exactly once more than the hit-debounce path alone
would give (no 500ms debounce on the splash increment), and the ball is
respawned at the car's position offset backward along the car's heading by
40 units, with zero velocity and an empty trail. -/
theorem splash_event (level : Level) (car : Car) (ball : BallState)
    (hitBall hitWall : Bool) (now lastT : ℤ) (strokes : ℕ) (gs : GameState) :
    (postPhysicsEvents level car ball hitBall hitWall true now lastT strokes gs).strokes
        = (if hitBall ∧ now - lastT > 500 then strokes + 1 else strokes) + 1 ∧
    (postPhysicsEvents level car ball hitBall hitWall true now lastT strokes gs).ball.pos
        = ⟨car.pos.x - Real.cos car.angle * 40, car.pos.y - Real.sin car.angle * 40⟩ ∧
    (postPhysicsEvents level car ball hitBall hitWall true now lastT strokes gs).ball.vel
        = ⟨0, 0⟩ ∧
    (postPhysicsEvents level car ball hitBall hitWall true now lastT strokes gs).ball.trail
        = [] := by
  unfold postPhysicsEvents
  refine ⟨?_, by simp, by simp, by simp⟩
  cases hitBall <;> simp

theorem trailStep_length_le (t : List Vector) (p : Vector) (s : ℝ)
    (h : t.length ≤ 15) : (trailStep t p s).length ≤ 15 := by
  unfold trailStep
  by_cases h1 : s > 1
  · rw [if_pos h1]
    by_cases h2 : (t ++ [p]).length > 15
    · rw [if_pos h2]
      simp only [List.length_tail, List.length_append, List.length_cons,
        List.length_nil]
      omega
    · rw [if_neg h2]
      omega
  · rw [if_neg h1]
    by_cases h2 : t.length > 0
    · rw [if_pos h2]
      simp only [List.length_tail]
      omega
    · rw [if_neg h2]
      exact h

theorem frameTrail_length_le (t : List Vector) (f : FrameIn)
    (h : t.length ≤ 15) : (frameTrail t f).length ≤ 15 := by
  unfold frameTrail postPhysicsEvents
  cases hsp : f.splash
  · simpa [hsp] using trailStep_length_le t f.ballPos _ h
  · simp [hsp]

theorem foldl_frameTrail_length_le (fs : List FrameIn) :
    ∀ t : List Vector, t.length ≤ 15 → (fs.foldl frameTrail t).length ≤ 15 := by
  induction fs with
  | nil => intro t h; simpa using h
  | cons f fs ih => intro t h; simpa using ih _ (frameTrail_length_le t f h)

/-- C5: starting from a freshly reset game (empty trail), the ball's trail
holds at most 15 positions after any sequence of frames; when the ball's
speed exceeds 1 and the trail is full the current position is pushed and
the oldest entry evicted, and when the ball is nearly stationary the trail
shrinks from the front by one entry per frame. -/
theorem trail_length_invariant :
    (∀ fs : List FrameIn, (fs.foldl frameTrail ([] : List Vector)).length ≤ 15) ∧
    (∀ (t : List Vector) (p : Vector) (s : ℝ),
      s > 1 → t.length = 15 → trailStep t p s = t.tail ++ [p]) ∧
    (∀ (t : List Vector) (p : Vector) (s : ℝ),
      ¬s > 1 → t.length > 0 → (trailStep t p s).length = t.length - 1) := by
  refine ⟨fun fs => foldl_frameTrail_length_le fs [] (by simp), ?_, ?_⟩
  · intro t p s hs hlen
    unfold trailStep
    rw [if_pos hs, if_pos (by simp [hlen])]
    cases t with
    | nil => simp at hlen
    | cons a t' => simp
  · intro t p s hs hlen
    unfold trailStep
    rw [if_neg hs, if_pos hlen]
    simp only [List.length_tail]

theorem trail_length_invariant_witness :
    (2 : ℝ) > 1 ∧ (List.replicate 15 (⟨0, 0⟩ : Vector)).length = 15 ∧
      trailStep (List.replicate 15 (⟨0, 0⟩ : Vector)) ⟨1, 1⟩ 2
        = (List.replicate 15 (⟨0, 0⟩ : Vector)).tail ++ [⟨1, 1⟩] :=
  ⟨by norm_num, by simp,
   trail_length_invariant.2.1 (List.replicate 15 ⟨0, 0⟩) ⟨1, 1⟩ 2
     (by norm_num) (by simp)⟩

/-- C4 (amended): in every PLAYING frame the car and ball are advanced in
up to 8 equal sub-steps; in a sub-step where the ball overlaps a water
rectangle, the splash flag is set, the wall-collision processing of that
sub-step is skipped (the car keeps exactly its advanced/car-ball-resolved
state), and the remaining sub-steps of the frame are skipped as well: the
sub-step loop exits early. -/
theorem substep_splash_stops_frame (level : Level) (s : SubState) (n : ℕ) :
    ((substepOnce level s).splash = true →
      substepLoop level (n + 1) s = substepOnce level s) ∧
    ((substepOnce level s).splash = false →
      substepLoop level (n + 1) s = substepLoop level n (substepOnce level s)) ∧
    ((substepOnce level s).splash = true →
      (substepOnce level s).car =
        (if checkCircleCircleCollision (advanceCar s.car).toGameObject (advanceBall s.ball)
         then (resolveCarBallCollision (advanceCar s.car) (advanceBall s.ball)).1
         else advanceCar s.car) ∧
      (substepOnce level s).hitWall = s.hitWall) := by
  refine ⟨fun h => by simp only [substepLoop, h, if_true], fun h => by
    simp only [substepLoop, h, Bool.false_eq_true, if_false], fun h => ?_⟩
  simp only [substepOnce] at h ⊢
  by_cases hc : checkCircleCircleCollision (advanceCar s.car).toGameObject (advanceBall s.ball)
  · simp only [if_pos hc] at h ⊢
    split_ifs at h ⊢ with h1
    exact ⟨rfl, rfl⟩
  · simp only [if_neg hc] at h ⊢
    split_ifs at h ⊢ with h1
    exact ⟨rfl, rfl⟩

theorem substepOnce_concrete :
    substepOnce ⟨6, "W", 6, [], [], [⟨-100, -100, 200, 200, 3⟩], ⟨100, 650⟩, ⟨900, 100⟩⟩
        ⟨⟨⟨⟨500, 0⟩, ⟨0, 0⟩, 15⟩, 0, 0, 30, 18⟩, ⟨⟨0, 0⟩, ⟨8, 0⟩, 10⟩, false, false, false⟩
      = ⟨⟨⟨⟨500, 0⟩, ⟨0, 0⟩, 15⟩, 0, 0, 30, 18⟩, ⟨⟨1, 0⟩, ⟨8, 0⟩, 10⟩, false, false, true⟩ := by
  have hcar : advanceCar ⟨⟨⟨500, 0⟩, ⟨0, 0⟩, 15⟩, 0, 0, 30, 18⟩
      = ⟨⟨⟨500, 0⟩, ⟨0, 0⟩, 15⟩, 0, 0, 30, 18⟩ := by
    simp [advanceCar, SUBSTEPS]
  have hball : advanceBall ⟨⟨0, 0⟩, ⟨8, 0⟩, 10⟩ = ⟨⟨1, 0⟩, ⟨8, 0⟩, 10⟩ := by
    simp [advanceBall, SUBSTEPS]
  have hdist : getDistance ⟨500, 0⟩ ⟨1, 0⟩ = 499 := by
    unfold getDistance
    apply sqrt_of_sq (by norm_num : (0 : ℝ) ≤ 499)
    norm_num
  have hnocol : ¬checkCircleCircleCollision ⟨⟨500, 0⟩, ⟨0, 0⟩, 15⟩ ⟨⟨1, 0⟩, ⟨8, 0⟩, 10⟩ := by
    simp only [checkCircleCircleCollision]
    norm_num [hdist]
  have hwater : checkCircleRectCollision ⟨⟨1, 0⟩, ⟨8, 0⟩, 10⟩ ⟨-100, -100, 200, 200, 3⟩ := by
    unfold checkCircleRectCollision closestPoint
    norm_num
  simp only [substepOnce, hcar, hball]
  rw [if_neg hnocol]
  simp [hwater]

/-- C4 (counterexample): with no walls, the car far from the ball, and the
ball inside a water rectangle on the very first sub-step, the sub-step
loop exits after that first sub-step: the ball has advanced by only
`vel.x / 8 = 1`, not by the full `vel.x = 8` that processing the remaining
seven sub-steps would produce — refuting the claim that the remaining
sub-steps of the frame are still processed after a splash. -/
theorem substep_splash_counterexample :
    (substepLoop ⟨6, "W", 6, [], [], [⟨-100, -100, 200, 200, 3⟩], ⟨100, 650⟩, ⟨900, 100⟩⟩ 8
        ⟨⟨⟨⟨500, 0⟩, ⟨0, 0⟩, 15⟩, 0, 0, 30, 18⟩, ⟨⟨0, 0⟩, ⟨8, 0⟩, 10⟩, false, false, false⟩).splash
        = true ∧
    (substepLoop ⟨6, "W", 6, [], [], [⟨-100, -100, 200, 200, 3⟩], ⟨100, 650⟩, ⟨900, 100⟩⟩ 8
        ⟨⟨⟨⟨500, 0⟩, ⟨0, 0⟩, 15⟩, 0, 0, 30, 18⟩, ⟨⟨0, 0⟩, ⟨8, 0⟩, 10⟩, false, false, false⟩).ball.pos.x
        = 1 ∧
    (substepLoop ⟨6, "W", 6, [], [], [⟨-100, -100, 200, 200, 3⟩], ⟨100, 650⟩, ⟨900, 100⟩⟩ 8
        ⟨⟨⟨⟨500, 0⟩, ⟨0, 0⟩, 15⟩, 0, 0, 30, 18⟩, ⟨⟨0, 0⟩, ⟨8, 0⟩, 10⟩, false, false, false⟩).ball.pos.x
        ≠ 8 := by
  have hloop :
      substepLoop ⟨6, "W", 6, [], [], [⟨-100, -100, 200, 200, 3⟩], ⟨100, 650⟩, ⟨900, 100⟩⟩ 8
          ⟨⟨⟨⟨500, 0⟩, ⟨0, 0⟩, 15⟩, 0, 0, 30, 18⟩, ⟨⟨0, 0⟩, ⟨8, 0⟩, 10⟩, false, false, false⟩
        = ⟨⟨⟨⟨500, 0⟩, ⟨0, 0⟩, 15⟩, 0, 0, 30, 18⟩, ⟨⟨1, 0⟩, ⟨8, 0⟩, 10⟩, false, false, true⟩ := by
    show substepLoop _ (7 + 1) _ = _
    simp [substepLoop, substepOnce_concrete]
  rw [hloop]
  norm_num

theorem substep_splash_stops_frame_witness :
    (substepOnce ⟨6, "W", 6, [], [], [⟨-100, -100, 200, 200, 3⟩], ⟨100, 650⟩, ⟨900, 100⟩⟩
        ⟨⟨⟨⟨500, 0⟩, ⟨0, 0⟩, 15⟩, 0, 0, 30, 18⟩, ⟨⟨0, 0⟩, ⟨8, 0⟩, 10⟩, false, false, false⟩).splash
        = true ∧
    substepLoop ⟨6, "W", 6, [], [], [⟨-100, -100, 200, 200, 3⟩], ⟨100, 650⟩, ⟨900, 100⟩⟩ (7 + 1)
        ⟨⟨⟨⟨500, 0⟩, ⟨0, 0⟩, 15⟩, 0, 0, 30, 18⟩, ⟨⟨0, 0⟩, ⟨8, 0⟩, 10⟩, false, false, false⟩
      = substepOnce ⟨6, "W", 6, [], [], [⟨-100, -100, 200, 200, 3⟩], ⟨100, 650⟩, ⟨900, 100⟩⟩
          ⟨⟨⟨⟨500, 0⟩, ⟨0, 0⟩, 15⟩, 0, 0, 30, 18⟩, ⟨⟨0, 0⟩, ⟨8, 0⟩, 10⟩, false, false, false⟩ :=
  ⟨by rw [substepOnce_concrete],
   (substep_splash_stops_frame
       ⟨6, "W", 6, [], [], [⟨-100, -100, 200, 200, 3⟩], ⟨100, 650⟩, ⟨900, 100⟩⟩
       ⟨⟨⟨⟨500, 0⟩, ⟨0, 0⟩, 15⟩, 0, 0, 30, 18⟩, ⟨⟨0, 0⟩, ⟨8, 0⟩, 10⟩, false, false, false⟩ 7).1
     (by rw [substepOnce_concrete])⟩

theorem clamp_sq_le (a b c q : ℝ) (h1 : a ≤ q) (h2 : q ≤ b) :
    (c - max a (min c b)) * (c - max a (min c b)) ≤ (c - q) * (c - q) := by
  rcases le_total c a with h | h
  · rw [min_eq_left (h.trans (h1.trans h2)), max_eq_left h]
    nlinarith
  · rcases le_total c b with h' | h'
    · rw [min_eq_left h', max_eq_right h]
      nlinarith [sq_nonneg (c - q)]
    · rw [min_eq_right h', max_eq_right (h1.trans h2)]
      nlinarith

/-- C6: for a circle of positive radius and a rectangle with nonnegative
extents, `checkCircleRectCollision` holds iff some point of the rectangle
lies strictly inside the circle (the clamp of the center to the
rectangle's bounds is the closest such point); in particular a center
inside the rectangle always collides. -/
theorem checkCircleRect_iff (circle : GameObject) (rect : Rect)
    (hr : 0 < circle.radius) (hw : 0 ≤ rect.w) (hh : 0 ≤ rect.h) :
    (checkCircleRectCollision circle rect ↔
      ∃ p : Vector, inRect p rect ∧ getDistance circle.pos p < circle.radius) ∧
    (inRect circle.pos rect → checkCircleRectCollision circle rect) := by
  have hxb : rect.x ≤ rect.x + rect.w := by linarith
  have hyb : rect.y ≤ rect.y + rect.h := by linarith
  constructor
  · constructor
    · intro hc
      refine ⟨closestPoint circle.pos rect,
        ⟨le_max_left _ _, max_le hxb (min_le_right _ _), le_max_left _ _,
         max_le hyb (min_le_right _ _)⟩, ?_⟩
      unfold checkCircleRectCollision at hc
      unfold getDistance
      rw [Real.sqrt_lt' hr, pow_two]
      exact hc
    · rintro ⟨p, hp, hd⟩
      obtain ⟨hp1, hp2, hp3, hp4⟩ := hp
      unfold getDistance at hd
      rw [Real.sqrt_lt' hr] at hd
      simp only [checkCircleRectCollision, closestPoint]
      have ex := clamp_sq_le rect.x (rect.x + rect.w) circle.pos.x p.x hp1 hp2
      have ey := clamp_sq_le rect.y (rect.y + rect.h) circle.pos.y p.y hp3 hp4
      have hrr : circle.radius ^ 2 = circle.radius * circle.radius := pow_two _
      linarith
  · intro hin
    obtain ⟨h1, h2, h3, h4⟩ := hin
    simp only [checkCircleRectCollision, closestPoint]
    rw [min_eq_left h2, max_eq_right h1, min_eq_left h4, max_eq_right h3]
    have := mul_pos hr hr
    nlinarith

theorem checkCircleRect_iff_witness :
    0 < (1 : ℝ) ∧ 0 ≤ (10 : ℝ) ∧ inRect ⟨5, 5⟩ ⟨0, 0, 10, 10, 1⟩ ∧
      checkCircleRectCollision ⟨⟨5, 5⟩, ⟨0, 0⟩, 1⟩ ⟨0, 0, 10, 10, 1⟩ :=
  ⟨by norm_num, by norm_num, by norm_num [inRect],
   (checkCircleRect_iff ⟨⟨5, 5⟩, ⟨0, 0⟩, 1⟩ ⟨0, 0, 10, 10, 1⟩ (by norm_num)
       (by norm_num) (by norm_num)).2 (by norm_num [inRect])⟩

theorem clamp_shift (a b c : ℝ) (hab : a ≤ b) (s : ℝ) (hs : 0 ≤ s) :
    max a (min (max a (min c b) + (c - max a (min c b)) * s) b) = max a (min c b) := by
  rcases le_total c a with h | h
  · have h1 : min c b = c := min_eq_left (h.trans hab)
    have h2 : max a c = a := max_eq_left h
    rw [h1, h2]
    have hle : a + (c - a) * s ≤ a := by nlinarith
    rw [min_eq_left (hle.trans hab), max_eq_left hle]
  · rcases le_total c b with h2 | h2
    · have h1 : min c b = c := min_eq_left h2
      have h3 : max a c = c := max_eq_right h
      rw [h1, h3, sub_self, zero_mul, add_zero, h1, h3]
    · have h1 : min c b = b := min_eq_right h2
      have h3 : max a b = b := max_eq_right hab
      rw [h1, h3]
      have hge : b ≤ b + (c - b) * s := by nlinarith
      rw [min_eq_right hge, max_eq_right hab]

/-- C7: for a circle whose center is at nonzero distance from its clamp on
the rectangle, `resolveCircleRectCollision` moves the center to distance
exactly `radius` from its closest rectangle point (penetration eliminated
in one push), so the resolved circle no longer overlaps the rectangle; in
the degenerate zero-distance case the circle is returned unchanged. -/
theorem resolve_no_overlap (circle : GameObject) (rect : Rect)
    (hr : 0 ≤ circle.radius) (hw : 0 ≤ rect.w) (hh : 0 ≤ rect.h) :
    (closestDist circle.pos rect ≠ 0 →
      closestDist (resolveCircleRectCollision circle rect).pos rect = circle.radius ∧
      (resolveCircleRectCollision circle rect).radius = circle.radius ∧
      ¬checkCircleRectCollision (resolveCircleRectCollision circle rect) rect) ∧
    (closestDist circle.pos rect = 0 → resolveCircleRectCollision circle rect = circle) := by
  have hxb : rect.x ≤ rect.x + rect.w := by linarith
  have hyb : rect.y ≤ rect.y + rect.h := by linarith
  constructor
  · intro hne
    simp only [closestDist, getDistance, checkCircleRectCollision, closestPoint,
      resolveCircleRectCollision] at hne ⊢
    rw [if_neg hne]
    set cx := circle.pos.x with hcx
    set cy := circle.pos.y with hcy
    set px := max rect.x (min cx (rect.x + rect.w)) with hpx
    set py := max rect.y (min cy (rect.y + rect.h)) with hpy
    set dist := Real.sqrt ((cx - px) * (cx - px) + (cy - py) * (cy - py)) with hdist
    have hd2nn : 0 ≤ (cx - px) * (cx - px) + (cy - py) * (cy - py) :=
      add_nonneg (mul_self_nonneg _) (mul_self_nonneg _)
    have hdpos : 0 < dist := lt_of_le_of_ne (Real.sqrt_nonneg _) (Ne.symm hne)
    have hdd : dist * dist = (cx - px) * (cx - px) + (cy - py) * (cy - py) := by
      rw [hdist]; exact Real.mul_self_sqrt hd2nn
    have hs : 0 ≤ circle.radius / dist := div_nonneg hr hdpos.le
    have hex : cx + (cx - px) / dist * (circle.radius - dist)
        = px + (cx - px) * (circle.radius / dist) := by
      field_simp
      ring
    have hey : cy + (cy - py) / dist * (circle.radius - dist)
        = py + (cy - py) * (circle.radius / dist) := by
      field_simp
      ring
    have hclampx : max rect.x (min (px + (cx - px) * (circle.radius / dist)) (rect.x + rect.w))
        = px := by
      rw [hpx]
      exact clamp_shift rect.x (rect.x + rect.w) cx hxb _ hs
    have hclampy : max rect.y (min (py + (cy - py) * (circle.radius / dist)) (rect.y + rect.h))
        = py := by
      rw [hpy]
      exact clamp_shift rect.y (rect.y + rect.h) cy hyb _ hs
    have inner_eq :
        (px + (cx - px) * (circle.radius / dist) - px)
            * (px + (cx - px) * (circle.radius / dist) - px)
          + (py + (cy - py) * (circle.radius / dist) - py)
            * (py + (cy - py) * (circle.radius / dist) - py)
        = circle.radius ^ 2 := by
      have expand :
          (px + (cx - px) * (circle.radius / dist) - px)
              * (px + (cx - px) * (circle.radius / dist) - px)
            + (py + (cy - py) * (circle.radius / dist) - py)
              * (py + (cy - py) * (circle.radius / dist) - py)
          = ((cx - px) * (cx - px) + (cy - py) * (cy - py)) * (circle.radius / dist)
              * (circle.radius / dist) := by ring
      rw [expand, ← hdd]
      field_simp
      ring
    refine ⟨?_, rfl, ?_⟩
    · simp only []
      rw [hex, hey, hclampx, hclampy]
      exact sqrt_of_sq hr inner_eq.symm
    · simp only []
      rw [hex, hey, hclampx, hclampy, inner_eq, pow_two]
      exact lt_irrefl _
  · intro h0
    simp only [closestDist, getDistance, closestPoint] at h0
    simp only [resolveCircleRectCollision, closestPoint]
    rw [if_pos h0]

theorem resolve_no_overlap_witness :
    (0 : ℝ) ≤ 6 ∧ (0 : ℝ) ≤ 10 ∧ closestDist ⟨15, 5⟩ ⟨0, 0, 10, 10, 1⟩ ≠ 0 ∧
      closestDist (resolveCircleRectCollision ⟨⟨15, 5⟩, ⟨0, 0⟩, 6⟩ ⟨0, 0, 10, 10, 1⟩).pos
          ⟨0, 0, 10, 10, 1⟩ = 6 ∧
      ¬checkCircleRectCollision
          (resolveCircleRectCollision ⟨⟨15, 5⟩, ⟨0, 0⟩, 6⟩ ⟨0, 0, 10, 10, 1⟩)
          ⟨0, 0, 10, 10, 1⟩ := by
  have hcd : closestDist (⟨15, 5⟩ : Vector) ⟨0, 0, 10, 10, 1⟩ = 5 := by
    unfold closestDist getDistance closestPoint
    apply sqrt_of_sq (by norm_num : (0 : ℝ) ≤ 5)
    norm_num
  have hne : closestDist (⟨15, 5⟩ : Vector) ⟨0, 0, 10, 10, 1⟩ ≠ 0 := by
    rw [hcd]; norm_num
  refine ⟨by norm_num, by norm_num, hne, ?_, ?_⟩
  · exact ((resolve_no_overlap ⟨⟨15, 5⟩, ⟨0, 0⟩, 6⟩ ⟨0, 0, 10, 10, 1⟩ (by norm_num)
      (by norm_num) (by norm_num)).1 hne).1
  · exact ((resolve_no_overlap ⟨⟨15, 5⟩, ⟨0, 0⟩, 6⟩ ⟨0, 0, 10, 10, 1⟩ (by norm_num)
      (by norm_num) (by norm_num)).1 hne).2.2

/-- C8: in `resolveCircleRectCollision` the velocity is reflected (scaled
by the bounce coefficient) only when the incoming velocity points into the
contact normal (negative dot product); a stationary or departing circle
keeps its velocity, and when reflection applies the speed along the normal
never increases: `|v'·n| ≤ |v·n| * BALL_BOUNCE` with `BALL_BOUNCE = 0.8 ≤ 1`. -/
theorem resolve_bounce (circle : GameObject) (rect : Rect)
    (hne : closestDist circle.pos rect ≠ 0) :
    (0 ≤ dot circle.vel (contactNormal circle.pos rect) →
      (resolveCircleRectCollision circle rect).vel = circle.vel) ∧
    (dot circle.vel (contactNormal circle.pos rect) < 0 →
      |dot (resolveCircleRectCollision circle rect).vel (contactNormal circle.pos rect)|
        ≤ |dot circle.vel (contactNormal circle.pos rect)| * PHYSICS.BALL_BOUNCE) ∧
    PHYSICS.BALL_BOUNCE = 0.8 ∧ PHYSICS.BALL_BOUNCE ≤ 1 := by
  refine ⟨?_, ?_, rfl, by norm_num [PHYSICS.BALL_BOUNCE]⟩
  · intro h
    simp only [closestDist, getDistance, contactNormal, closestPoint, dot,
      resolveCircleRectCollision] at hne h ⊢
    rw [if_neg hne]
    simp only []
    rw [if_neg (not_lt.2 h)]
  · intro h
    simp only [closestDist, getDistance, contactNormal, closestPoint, dot,
      resolveCircleRectCollision] at hne h ⊢
    rw [if_neg hne]
    simp only []
    rw [if_pos h]
    set cx := circle.pos.x with hcx
    set cy := circle.pos.y with hcy
    set vx := circle.vel.x with hvx
    set vy := circle.vel.y with hvy
    set px := max rect.x (min cx (rect.x + rect.w)) with hpx
    set py := max rect.y (min cy (rect.y + rect.h)) with hpy
    set dist := Real.sqrt ((cx - px) * (cx - px) + (cy - py) * (cy - py)) with hdist
    have hd2nn : 0 ≤ (cx - px) * (cx - px) + (cy - py) * (cy - py) :=
      add_nonneg (mul_self_nonneg _) (mul_self_nonneg _)
    have hdd : dist * dist = (cx - px) * (cx - px) + (cy - py) * (cy - py) := by
      rw [hdist]; exact Real.mul_self_sqrt hd2nn
    have hunit : (cx - px) / dist * ((cx - px) / dist)
        + (cy - py) / dist * ((cy - py) / dist) = 1 := by
      field_simp
      linear_combination -hdd
    set dp := vx * ((cx - px) / dist) + vy * ((cy - py) / dist) with hdp
    have key : (vx - 2 * dp * ((cx - px) / dist)) * PHYSICS.BALL_BOUNCE * ((cx - px) / dist)
        + (vy - 2 * dp * ((cy - py) / dist)) * PHYSICS.BALL_BOUNCE * ((cy - py) / dist)
        = -(PHYSICS.BALL_BOUNCE * dp) := by
      rw [hdp]
      linear_combination (-2 * PHYSICS.BALL_BOUNCE *
        (vx * ((cx - px) / dist) + vy * ((cy - py) / dist))) * hunit
    rw [key, abs_neg, abs_mul,
      abs_of_nonneg (by norm_num [PHYSICS.BALL_BOUNCE] : (0 : ℝ) ≤ PHYSICS.BALL_BOUNCE),
      mul_comm]

theorem resolve_bounce_witness :
    closestDist ⟨15, 5⟩ ⟨0, 0, 10, 10, 1⟩ ≠ 0 ∧
      0 ≤ dot ⟨1, 0⟩ (contactNormal ⟨15, 5⟩ ⟨0, 0, 10, 10, 1⟩) ∧
      (resolveCircleRectCollision ⟨⟨15, 5⟩, ⟨1, 0⟩, 6⟩ ⟨0, 0, 10, 10, 1⟩).vel
        = ⟨1, 0⟩ := by
  have hcd : closestDist (⟨15, 5⟩ : Vector) ⟨0, 0, 10, 10, 1⟩ = 5 := by
    unfold closestDist getDistance closestPoint
    apply sqrt_of_sq (by norm_num : (0 : ℝ) ≤ 5)
    norm_num
  have hne : closestDist (⟨15, 5⟩ : Vector) ⟨0, 0, 10, 10, 1⟩ ≠ 0 := by
    rw [hcd]; norm_num
  have hdot : 0 ≤ dot ⟨1, 0⟩ (contactNormal ⟨15, 5⟩ ⟨0, 0, 10, 10, 1⟩) := by
    simp only [dot, contactNormal, closestPoint, hcd]
    norm_num
  exact ⟨hne, hdot, (resolve_bounce ⟨⟨15, 5⟩, ⟨1, 0⟩, 6⟩ ⟨0, 0, 10, 10, 1⟩ hne).1 hdot⟩

/-- C9: `resolveCarBallCollision` never modifies the car's position; for
centers at nonzero distance it returns `true` iff the car's velocity
projected on the car-to-ball normal exceeds the ball's; exactly in that
case the ball receives the impulse `(diff * 1.5) · n` and the car's speed
and velocity are damped by `0.8`, and otherwise the car and the ball's
velocity are unchanged — so the returned flag, not the geometric overlap,
is what distinguishes a meaningful hit. -/
theorem resolveCarBall_spec (car : Car) (ball : GameObject) :
    ((resolveCarBallCollision car ball).1.pos = car.pos) ∧
    (getDistance car.pos ball.pos ≠ 0 →
      ((resolveCarBallCollision car ball).2.2 = true ↔
        dot car.vel (carBallNormal car ball) > dot ball.vel (carBallNormal car ball))) ∧
    ((resolveCarBallCollision car ball).2.2 = true →
      (resolveCarBallCollision car ball).1.speed = car.speed * 0.8 ∧
      (resolveCarBallCollision car ball).1.vel = ⟨car.vel.x * 0.8, car.vel.y * 0.8⟩ ∧
      (resolveCarBallCollision car ball).2.1.vel = ⟨ball.vel.x + (carBallNormal car ball).x *
          ((dot car.vel (carBallNormal car ball) - dot ball.vel (carBallNormal car ball)) * 1.5),
        ball.vel.y + (carBallNormal car ball).y *
          ((dot car.vel (carBallNormal car ball) - dot ball.vel (carBallNormal car ball)) * 1.5)⟩) ∧
    ((resolveCarBallCollision car ball).2.2 = false →
      (resolveCarBallCollision car ball).1 = car ∧
      (resolveCarBallCollision car ball).2.1.vel = ball.vel) := by
  by_cases hd : getDistance car.pos ball.pos = 0
  · simp only [resolveCarBallCollision, carBallNormal]
    rw [if_pos hd]
    exact ⟨rfl, fun hne => absurd hd hne, fun h => by simp at h, fun _ => ⟨rfl, rfl⟩⟩
  · simp only [resolveCarBallCollision, carBallNormal]
    rw [if_neg hd]
    by_cases hgt : dot car.vel ⟨(ball.pos.x - car.pos.x) / getDistance car.pos ball.pos,
        (ball.pos.y - car.pos.y) / getDistance car.pos ball.pos⟩ >
      dot ball.vel ⟨(ball.pos.x - car.pos.x) / getDistance car.pos ball.pos,
        (ball.pos.y - car.pos.y) / getDistance car.pos ball.pos⟩
    · rw [if_pos hgt]
      exact ⟨rfl, fun _ => iff_of_true rfl hgt, fun _ => ⟨rfl, rfl, rfl⟩,
        fun hfalse => by simp at hfalse⟩
    · rw [if_neg hgt]
      exact ⟨rfl, fun _ => iff_of_false (by simp) hgt, fun h => by simp at h,
        fun _ => ⟨rfl, rfl⟩⟩

theorem resolveCarBall_spec_witness :
    getDistance ⟨0, 0⟩ ⟨20, 0⟩ ≠ 0 ∧
      ((resolveCarBallCollision ⟨⟨⟨0, 0⟩, ⟨5, 0⟩, 15⟩, 0, 5, 30, 18⟩
            ⟨⟨20, 0⟩, ⟨0, 0⟩, 10⟩).2.2 = true ↔
        dot ⟨5, 0⟩ (carBallNormal ⟨⟨⟨0, 0⟩, ⟨5, 0⟩, 15⟩, 0, 5, 30, 18⟩ ⟨⟨20, 0⟩, ⟨0, 0⟩, 10⟩)
          > dot ⟨0, 0⟩
              (carBallNormal ⟨⟨⟨0, 0⟩, ⟨5, 0⟩, 15⟩, 0, 5, 30, 18⟩ ⟨⟨20, 0⟩, ⟨0, 0⟩, 10⟩)) := by
  have hgd : getDistance (⟨0, 0⟩ : Vector) ⟨20, 0⟩ = 20 := by
    unfold getDistance
    apply sqrt_of_sq (by norm_num : (0 : ℝ) ≤ 20)
    norm_num
  have hne : getDistance (⟨0, 0⟩ : Vector) ⟨20, 0⟩ ≠ 0 := by
    rw [hgd]; norm_num
  exact ⟨hne,
    (resolveCarBall_spec ⟨⟨⟨0, 0⟩, ⟨5, 0⟩, 15⟩, 0, 5, 30, 18⟩ ⟨⟨20, 0⟩, ⟨0, 0⟩, 10⟩).2.1 hne⟩

end DriveAndPutt
